import Mathlib

/-!
Verification development for the single-file guessing-game application
(`app.py`).  The external text-generation collaborator (`ollama.chat`) is
abstracted as an oracle `Nat → String` giving the raw `message.content` of
the k-th call made by the surrounding loop; everything else is a direct
shallow embedding of the Python source: the identity generator, the
JSON-extracting answer validator, the caller-side overrides, the session
reset helper and the per-turn handler of `main`.
-/

/-- `IdentityAnswer` (app.py lines 18-21): the three-field response schema. -/
structure IdentityAnswer where
  response : String
  is_question : Bool
  is_correct_guess : Bool
  deriving DecidableEq, Repr

/-! ### Python string primitives

`str.strip`, `str.lower` and the `in` substring test, modelled on character
lists (the inputs relevant here are ASCII, where these agree with Python). -/

/-- Characters removed by Python `str.strip()` (ASCII whitespace). -/
def py_ws (c : Char) : Bool :=
  (c == ' ') || (c == '\t') || (c == '\n') || (c == '\x0d') || (c == '\x0b') || (c == '\x0c')

/-- Python `str.strip()`: drop whitespace from both ends. -/
def py_strip (s : String) : String :=
  String.mk (((s.toList.dropWhile py_ws).reverse.dropWhile py_ws).reverse)

/-- Python `str.lower()` (ASCII case folding). -/
def py_lower (s : String) : String :=
  String.mk (s.toList.map Char.toLower)

/-- Helper for Python `needle in haystack` on character lists. -/
def py_in (needle : List Char) : List Char → Bool
  | [] => needle.isEmpty
  | c :: rest => needle.isPrefixOf (c :: rest) || py_in needle rest

/-- Python substring test `needle in haystack`. -/
def py_contains (haystack needle : String) : Bool :=
  py_in needle.toList haystack.toList

/-! ### A model of `json.loads`

Decoded JSON values.  Numbers keep their source text (their numeric value is
irrelevant to the schema, which only accepts strings and booleans). -/

inductive Json where
  | str (s : String)
  | bool (b : Bool)
  | null
  | num (text : String)
  | arr (elems : List Json)
  | obj (fields : List (String × Json))

/-- JSON inter-token whitespace accepted by `json.loads`. -/
def json_ws (c : Char) : Bool :=
  (c == ' ') || (c == '\t') || (c == '\n') || (c == '\x0d')

def skipWs (cs : List Char) : List Char :=
  cs.dropWhile json_ws

/-- Value of a hexadecimal digit. -/
def hexVal (c : Char) : Option Nat :=
  if c.isDigit then some (c.toNat - 48)
  else if 97 ≤ c.toNat && c.toNat ≤ 102 then some (c.toNat - 87)
  else if 65 ≤ c.toNat && c.toNat ≤ 70 then some (c.toNat - 55)
  else none

/-- Match a literal run of characters, returning the rest on success. -/
def expectChars : List Char → List Char → Option (List Char)
  | [], cs => some cs
  | _, [] => none
  | l :: ls, c :: cs => if l = c then expectChars ls cs else none

/-- Body of a JSON string literal (after the opening quote), with the strict
escape handling of `json.loads`: named escapes and `\uXXXX`; unescaped
control characters are rejected.  Fuel bounds the recursion. -/
def parseJString : Nat → List Char → Option (List Char × List Char)
  | 0, _ => none
  | _, [] => none
  | fuel + 1, c :: rest =>
    if c = '"' then some ([], rest)
    else if c = '\\' then
      match rest with
      | [] => none
      | e :: r2 =>
        if e = '"' then (parseJString fuel r2).map (fun p => ('"' :: p.1, p.2))
        else if e = '\\' then (parseJString fuel r2).map (fun p => ('\\' :: p.1, p.2))
        else if e = '/' then (parseJString fuel r2).map (fun p => ('/' :: p.1, p.2))
        else if e = 'b' then (parseJString fuel r2).map (fun p => ('\x08' :: p.1, p.2))
        else if e = 'f' then (parseJString fuel r2).map (fun p => ('\x0c' :: p.1, p.2))
        else if e = 'n' then (parseJString fuel r2).map (fun p => ('\n' :: p.1, p.2))
        else if e = 'r' then (parseJString fuel r2).map (fun p => ('\x0d' :: p.1, p.2))
        else if e = 't' then (parseJString fuel r2).map (fun p => ('\t' :: p.1, p.2))
        else if e = 'u' then
          match r2 with
          | h1 :: h2 :: h3 :: h4 :: r3 =>
            match hexVal h1, hexVal h2, hexVal h3, hexVal h4 with
            | some a, some b, some c3, some d =>
              (parseJString fuel r3).map
                (fun p => (Char.ofNat (((a * 16 + b) * 16 + c3) * 16 + d) :: p.1, p.2))
            | _, _, _, _ => none
          | _ => none
        else none
    else if c.toNat < 32 then none
    else (parseJString fuel rest).map (fun p => (c :: p.1, p.2))

/-- Optional fraction part `(\.[0-9]+)?` of the JSON number grammar. -/
def parseFrac (cs : List Char) : List Char × List Char :=
  match cs with
  | '.' :: rest =>
    let ds := rest.takeWhile Char.isDigit
    if ds.isEmpty then ([], cs) else ('.' :: ds, rest.dropWhile Char.isDigit)
  | _ => ([], cs)

/-- Optional exponent part `([eE][+-]?[0-9]+)?` of the JSON number grammar. -/
def parseExp (cs : List Char) : List Char × List Char :=
  match cs with
  | [] => ([], cs)
  | e :: rest =>
    if e = 'e' || e = 'E' then
      let p : List Char × List Char :=
        match rest with
        | '+' :: r => (['+'], r)
        | '-' :: r => (['-'], r)
        | _ => ([], rest)
      let ds := p.2.takeWhile Char.isDigit
      if ds.isEmpty then ([], cs)
      else (e :: (p.1 ++ ds), p.2.dropWhile Char.isDigit)
    else ([], cs)

/-- JSON number grammar `-?(0|[1-9][0-9]*)(\.[0-9]+)?([eE][+-]?[0-9]+)?`,
returning the matched text and the rest. -/
def parseNumberChars (cs : List Char) : Option (List Char × List Char) :=
  let sgn : List Char × List Char :=
    match cs with
    | '-' :: rest => (['-'], rest)
    | _ => ([], cs)
  match sgn.2 with
  | [] => none
  | c :: rest =>
    if c = '0' then
      let f := parseFrac rest
      let e := parseExp f.2
      some (sgn.1 ++ [c] ++ f.1 ++ e.1, e.2)
    else if c.isDigit then
      let ds := (c :: rest).takeWhile Char.isDigit
      let cs2 := (c :: rest).dropWhile Char.isDigit
      let f := parseFrac cs2
      let e := parseExp f.2
      some (sgn.1 ++ ds ++ f.1 ++ e.1, e.2)
    else none

mutual

/-- One JSON value (with leading whitespace), as accepted by `json.loads`:
strings, objects, arrays, `true`/`false`/`null`, numbers and the Python
extensions `NaN`, `Infinity`, `-Infinity`. -/
def parseValue : Nat → List Char → Option (Json × List Char)
  | 0, _ => none
  | fuel + 1, cs =>
    match skipWs cs with
    | [] => none
    | c :: rest =>
      if c = '"' then
        match parseJString fuel rest with
        | some (body, r1) => some (Json.str (String.mk body), r1)
        | none => none
      else if c = '\x7b' then
        match skipWs rest with
        | '\x7d' :: r1 => some (Json.obj [], r1)
        | _ => parseMembers fuel rest []
      else if c = '[' then
        match skipWs rest with
        | ']' :: r1 => some (Json.arr [], r1)
        | _ => parseElements fuel rest []
      else if c = 't' then
        match expectChars (['r', 'u', 'e']) rest with
        | some r1 => some (Json.bool true, r1)
        | none => none
      else if c = 'f' then
        match expectChars (['a', 'l', 's', 'e']) rest with
        | some r1 => some (Json.bool false, r1)
        | none => none
      else if c = 'n' then
        match expectChars (['u', 'l', 'l']) rest with
        | some r1 => some (Json.null, r1)
        | none => none
      else if c = 'N' then
        match expectChars (['a', 'N']) rest with
        | some r1 => some (Json.num ("NaN"), r1)
        | none => none
      else if c = 'I' then
        match expectChars (['n', 'f', 'i', 'n', 'i', 't', 'y']) rest with
        | some r1 => some (Json.num ("Infinity"), r1)
        | none => none
      else if c = '-' then
        match expectChars (['I', 'n', 'f', 'i', 'n', 'i', 't', 'y']) rest with
        | some r1 => some (Json.num ("-Infinity"), r1)
        | none =>
          match parseNumberChars (c :: rest) with
          | some (numText, r1) => some (Json.num (String.mk numText), r1)
          | none => none
      else
        match parseNumberChars (c :: rest) with
        | some (numText, r1) => some (Json.num (String.mk numText), r1)
        | none => none

/-- Members of a JSON object after the opening brace (non-empty case).
Duplicate keys are kept in order; lookups take the last occurrence, as a
Python dict built left to right would. -/
def parseMembers : Nat → List Char → List (String × Json) → Option (Json × List Char)
  | 0, _, _ => none
  | fuel + 1, cs, acc =>
    match skipWs cs with
    | '"' :: rest =>
      match parseJString fuel rest with
      | none => none
      | some (key, r1) =>
        match skipWs r1 with
        | ':' :: r2 =>
          match parseValue fuel r2 with
          | none => none
          | some (v, r3) =>
            match skipWs r3 with
            | ',' :: r4 => parseMembers fuel r4 (acc ++ [(String.mk key, v)])
            | '\x7d' :: r4 => some (Json.obj (acc ++ [(String.mk key, v)]), r4)
            | _ => none
        | _ => none
    | _ => none

/-- Elements of a JSON array after the opening bracket (non-empty case). -/
def parseElements : Nat → List Char → List Json → Option (Json × List Char)
  | 0, _, _ => none
  | fuel + 1, cs, acc =>
    match parseValue fuel cs with
    | none => none
    | some (v, r1) =>
      match skipWs r1 with
      | ',' :: r2 => parseElements fuel r2 (acc ++ [v])
      | ']' :: r2 => some (Json.arr (acc ++ [v]), r2)
      | _ => none

end

/-- `json.loads`: parse exactly one JSON document, allowing surrounding
whitespace and rejecting trailing data.  The fuel is an upper bound on the
recursion depth, ample for any input of this length. -/
def json_loads (s : String) : Option Json :=
  let cs := s.toList
  match parseValue (4 * cs.length + 8) cs with
  | some (v, rest) => if skipWs rest = [] then some v else none
  | none => none


/-! ### Schema validation and the brace-extraction fallback -/

/-- Lookup in a decoded JSON object; on duplicate keys the last occurrence
wins, matching a Python dict built left to right. -/
def dict_get (fields : List (String × Json)) (key : String) : Option Json :=
  (fields.filter (fun kv => kv.1 == key)).getLast?.map (fun kv => kv.2)

/-- The decomposed text of a finite decoded JSON number: sign, integer and
fraction digits, whether the Python value is a `float` (a fraction or an
exponent is present) and the signed exponent digits. -/
structure PyNumber where
  neg : Bool
  intDigits : List Char
  fracDigits : List Char
  isFloat : Bool
  expNeg : Bool
  expDigits : List Char
  deriving DecidableEq, Repr

/-- Sign and digits of an exponent suffix (after the `e`/`E`). -/
def decodeExpChars (cs : List Char) : Bool × List Char :=
  match cs with
  | '+' :: r => (false, r.takeWhile Char.isDigit)
  | '-' :: r => (true, r.takeWhile Char.isDigit)
  | r => (false, r.takeWhile Char.isDigit)

/-- Decompose the text of a decoded JSON number (which obeys the JSON
number grammar); `none` for the non-finite literals `NaN`, `Infinity` and
`-Infinity`, which coerce to no schema type. -/
def decodeNumText (t : String) : Option PyNumber :=
  let cs0 := t.toList
  let neg := cs0.head? == some '-'
  let cs1 := if neg then cs0.drop 1 else cs0
  let intDigits := cs1.takeWhile Char.isDigit
  if intDigits.isEmpty then none
  else
    match cs1.dropWhile Char.isDigit with
    | [] => some { neg := neg, intDigits := intDigits, fracDigits := [],
                   isFloat := false, expNeg := false, expDigits := [] }
    | '.' :: r2 =>
      let fracDigits := r2.takeWhile Char.isDigit
      match r2.dropWhile Char.isDigit with
      | [] => some { neg := neg, intDigits := intDigits, fracDigits := fracDigits,
                     isFloat := true, expNeg := false, expDigits := [] }
      | _ :: r4 =>
        let ex := decodeExpChars r4
        some { neg := neg, intDigits := intDigits, fracDigits := fracDigits,
               isFloat := true, expNeg := ex.1, expDigits := ex.2 }
    | _ :: r4 =>
      let ex := decodeExpChars r4
      some { neg := neg, intDigits := intDigits, fracDigits := [],
             isFloat := true, expNeg := ex.1, expDigits := ex.2 }

/-- Numeric value of a run of decimal digits. -/
def digitsToNat (ds : List Char) : Nat :=
  ds.foldl (fun acc c => 10 * acc + (c.toNat - 48)) 0

/-- The signed exponent of a decomposed number. -/
def py_num_exp (p : PyNumber) : Int :=
  if p.expNeg then -(digitsToNat p.expDigits : Int) else (digitsToNat p.expDigits : Int)

/-- The decomposed number has exact decimal value 0 (covers `-0`, `0.00`,
`0e5`, ...). -/
def py_num_is_zero (p : PyNumber) : Bool :=
  digitsToNat (p.intDigits ++ p.fracDigits) == 0

/-- The decomposed number has exact decimal value 1 (covers `1`, `1.0`,
`0.1e1`, `10e-1`, ...).  Binary-float rounding of values merely close to 1
is not modelled. -/
def py_num_is_one (p : PyNumber) : Bool :=
  let m := digitsToNat (p.intDigits ++ p.fracDigits)
  let shift : Int := py_num_exp p - (p.fracDigits.length : Int)
  !p.neg && (if 0 ≤ shift then m * 10 ^ shift.toNat == 1 else m == 10 ^ ((-shift).toNat))

/-- The string literals pydantic coerces to a `bool` field (the same twelve
in v1 and v2), matched case-insensitively; the first six coerce to false,
the last six to true. -/
def bool_str_values : List String :=
  ["0", "off", "f", "false", "n", "no", "1", "on", "t", "true", "y", "yes"]

/-- Pydantic lax coercion of a decoded JSON value to a `bool` field, on
which v1 and v2 agree for JSON-decoded input: booleans pass through; the
twelve recognized string literals coerce case-insensitively; numbers equal
to 0 or 1 (int or float, by exact decimal value) coerce; everything else
raises `ValidationError`. -/
def coerce_bool : Json → Option Bool
  | Json.bool b => some b
  | Json.str s =>
    let ls := py_lower s
    if bool_str_values.contains ls then
      some ((["1", "on", "t", "true", "y", "yes"] : List String).contains ls)
    else none
  | Json.num t =>
    match decodeNumText t with
    | none => none
    | some p =>
      if py_num_is_zero p then some false
      else if py_num_is_one p then some true
      else none
  | _ => none

/-- Pydantic lax coercion of a decoded JSON value to a `str` field: v2
accepts exactly strings from JSON-decoded input (v1 would additionally
stringify numbers; no claim here depends on the difference). -/
def coerce_str : Json → Option String
  | Json.str s => some s
  | _ => none

/-- Validation of a decoded JSON object against the `IdentityAnswer` schema
declared in app.py lines 18-21, with the lax coercion a default pydantic
`BaseModel` (no strict config) applies: the three declared fields must be
present and each value must coerce to the declared type; extra keys are
ignored.  A missing field, or a value that coerces to neither, raises
`ValidationError` in the source, modelled here as `none`. -/
def validateIdentityAnswer (fields : List (String × Json)) : Option IdentityAnswer :=
  match dict_get fields ("response") with
  | none => none
  | some vr =>
    match coerce_str vr with
    | none => none
    | some r =>
      match dict_get fields ("is_question") with
      | none => none
      | some vq =>
        match coerce_bool vq with
        | none => none
        | some q =>
          match dict_get fields ("is_correct_guess") with
          | none => none
          | some vg =>
            match coerce_bool vg with
            | none => none
            | some g =>
              some { response := r, is_question := q, is_correct_guess := g }

/-- Characters of the first match of `JSON_RE`, continued: everything up to
and including the first closing brace. -/
def brace_take : List Char → Option (List Char)
  | [] => none
  | c :: rest => if c = '\x7d' then some [c] else (brace_take rest).map (fun l => c :: l)

/-- Characters of the first match of `JSON_RE`: scan to the first opening
brace, then take through the first closing brace after it. -/
def brace_search : List Char → Option (List Char)
  | [] => none
  | c :: rest =>
    if c = '\x7b' then (brace_take rest).map (fun l => c :: l) else brace_search rest

/-- `JSON_RE.search` for `JSON_RE = re.compile(r"\x7b.*?\x7d", re.S)`
(app.py line 104): the leftmost, shortest brace-delimited substring — from
the first opening brace through the first closing brace after it. -/
def extract_first_braces (s : String) : Option String :=
  (brace_search s.toList).map (fun l => String.mk l)

/-! ### The validator loop `ask_identity_ai`

Each attempt of the loop body (app.py lines 115-138) either produces a
validated answer, fails in a caught way (`json.JSONDecodeError` or
`ValidationError`, falling through to the next stage or attempt), or
crashes: `IdentityAnswer(**json.loads(raw))` raises an uncaught `TypeError`
when the decoded document is not an object, because `**` requires a
mapping and `except (json.JSONDecodeError, ValidationError)` does not
cover `TypeError`. -/

inductive StepResult where
  | success (a : IdentityAnswer)
  | failure
  | crash
  deriving DecidableEq, Repr

/-- The fast path (app.py lines 127-130): strict decoding of the whole
response followed by schema validation. -/
def strictStep (raw : String) : StepResult :=
  match json_loads raw with
  | none => StepResult.failure
  | some (Json.obj fields) =>
    match validateIdentityAnswer fields with
    | some a => StepResult.success a
    | none => StepResult.failure
  | some _ => StepResult.crash

/-- The fallback path (app.py lines 133-138): extract the first
brace-delimited substring and decode and validate that instead; no match
means the attempt simply fails. -/
def fallbackStep (raw : String) : StepResult :=
  match extract_first_braces raw with
  | none => StepResult.failure
  | some sub =>
    match json_loads sub with
    | none => StepResult.failure
    | some (Json.obj fields) =>
      match validateIdentityAnswer fields with
      | some a => StepResult.success a
      | none => StepResult.failure
    | some _ => StepResult.crash

/-- One whole attempt of the loop body: the fast path, then, on a caught
failure, the fallback. -/
def attemptAnswer (raw : String) : StepResult :=
  match strictStep raw with
  | StepResult.success a => StepResult.success a
  | StepResult.crash => StepResult.crash
  | StepResult.failure => fallbackStep raw

/-- The retry loop of `ask_identity_ai`, with `fuel` remaining attempts and
`k` the index of the next collaborator call.  `Except.error` marks the
uncaught-`TypeError` path; falling off the loop returns `none`. -/
def askLoop (oracle : Nat → String) : Nat → Nat → Except Unit (Option IdentityAnswer)
  | 0, _ => Except.ok none
  | fuel + 1, k =>
    match attemptAnswer (py_strip (oracle k)) with
    | StepResult.success a => Except.ok (some a)
    | StepResult.crash => Except.error ()
    | StepResult.failure => askLoop oracle fuel (k + 1)

/-- `ask_identity_ai` (app.py lines 106-139).  `user_input` and `identity`
only shape the prompts sent to the collaborator, which is abstracted by
`oracle`; they do not influence the control flow. -/
def ask_identity_ai (user_input identity : String) (oracle : Nat → String)
    (max_retries : Nat) : Except Unit (Option IdentityAnswer) :=
  askLoop oracle max_retries 0

/-! ### The identity generator -/

/-- The category-specific user prompt of `generate_identity` (app.py lines
30-47); `none` for an unrecognized category tag. -/
def identity_prompt (identity_type custom_details : String) : Option String :=
  if identity_type = "Random Character" then
    some ("Generate a random identity for a guessing game. Include historical figures, fictional characters, \ncelebrities, professionals, etc. The player will try to guess who this is through yes/no questions.")
  else if identity_type = "Historical Figure" then
    some ("Generate a historical figure identity for a guessing game. Choose someone significant from \nany time period in history. The player will try to guess who this is through yes/no questions.")
  else if identity_type = "Fictional Character" then
    some ("Generate a fictional character identity for a guessing game. This could be from literature, \nmovies, TV shows, comics, etc. The player will try to guess who this is through yes/no questions.")
  else if identity_type = "Profession/Role" then
    some ("Generate an identity based on a profession or role for a guessing game. \nThis could be any occupation (doctor, astronaut, teacher, etc.) or role (parent, leader, student, etc.) \nThe player will try to guess what this profession/role is through yes/no questions.")
  else if identity_type = "Custom" then
    some ("Generate an identity for a guessing game based on these details: " ++ custom_details ++ "\nThe player will try to guess who/what this is through yes/no questions.")
  else
    none

/-- `max_retries` of `generate_identity` (app.py line 58). -/
def generation_max_retries : Nat := 3

/-- `generate_identity` (app.py lines 26-72).  For a recognized category the
loop body reassigns `raw` on every iteration (starting from the unbound
state, modelled as `none`) and the value standing after the loop is
returned; an unrecognized category returns before any collaborator call. -/
def generate_identity (identity_type custom_details : String)
    (oracle : Nat → String) : Option String :=
  match identity_prompt identity_type custom_details with
  | none => none
  | some _prompt =>
    (List.range generation_max_retries).foldl
      (fun _ i => some (py_strip (oracle i))) none

/-- The five selectable category tags (app.py lines 196-202). -/
def identity_types : List String :=
  ["Random Character", "Historical Figure", "Fictional Character", "Profession/Role", "Custom"]

/-! ### Session state, reset, and the caller-side overrides -/

/-- The Streamlit session keys used by the game (identity, question counter,
game-over flag, transcript, stored setup choices, last answer).  The two
setup keys are optional because `reset_game` reads them with defaults. -/
structure SessionState where
  identity : String
  question_count : Nat
  game_over : Bool
  setup_complete : Bool
  messages : List (String × String)
  identity_type : Option String
  custom_details : Option String
  last_answer : Option IdentityAnswer
  deriving DecidableEq, Repr

/-- The transcript opener installed by `reset_game` (app.py lines 159-165). -/
def intro_message : String :=
  "Guess the secret identity using yes/no questions.  \nTry to guess in as few questions as possible!"

/-- `reset_game` (app.py lines 144-165): regenerate the identity from the
stored setup choices (with the source's defaults), substituting the
hardcoded fallback when generation yields `None` — or an empty string,
which is also falsy under `if new_identity:` — then reset the counters and
the transcript. -/
def reset_game (s : SessionState) (oracle : Nat → String) : SessionState :=
  let identity_type := s.identity_type.getD ("Random Character")
  let custom_details := s.custom_details.getD ("")
  let new_identity := generate_identity identity_type custom_details oracle
  let identity :=
    match new_identity with
    | some idText => if idText = "" then "Albert Einstein" else idText
    | none => "Albert Einstein"
  { s with identity := identity, question_count := 0, game_over := false,
           setup_complete := true, messages := [("System", intro_message)] }

/-- The first caller-side override (app.py lines 299-301): a bare
case-insensitive "yes"/"no" reply forces `is_question` to true. -/
def override_yesno (answer : IdentityAnswer) : IdentityAnswer :=
  if (["yes", "no"].contains (py_lower answer.response)) then
    { answer with is_question := true }
  else answer

/-- The second caller-side override (app.py lines 303-307): when the
lowercased identity occurs in the lowercased player input, the reply
becomes "Yes!", the guess is marked correct and `is_question` is cleared. -/
def override_guess (prompt identity : String) (answer : IdentityAnswer) : IdentityAnswer :=
  if py_contains (py_lower prompt) (py_lower identity) then
    { answer with response := "Yes!", is_correct_guess := true, is_question := false }
  else answer

/-- Both overrides in source order (app.py lines 299-307); each is guarded
by `if answer and ...`, so a missing answer passes through untouched. -/
def apply_overrides (prompt identity : String) :
    Option IdentityAnswer → Option IdentityAnswer
  | none => none
  | some a => some (override_guess prompt identity (override_yesno a))

/-- The inline error shown when validation fails (app.py line 310). -/
def invalid_json_message : String := "⚠️ AI returned invalid JSON. Try again."

/-- The end-of-game transcript entry (app.py line 328). -/
def end_message (identity : String) (count : Nat) : String :=
  "🎉 Correct! The identity was **" ++ identity ++ "**. You solved it in **" ++
    toString count ++ "** questions! 🎉"

/-- The turn handler of `main` (app.py lines 285-347), entered with a
non-empty player input: echo the player's message, run the validator and
the two overrides, then either record the inline error (validator returned
nothing), finish the game (correct guess: counter up, end message,
game-over), stop early when the game was already over, or count a valid
question.  `st.rerun`/`st.stop` end the script run, so the function returns
the session state standing at that point; the uncaught-`TypeError` path of
the validator propagates as `Except.error`. -/
def handle_turn (s : SessionState) (prompt : String) (oracle : Nat → String) :
    Except Unit SessionState :=
  let messages1 := s.messages ++ [("You", prompt)]
  match ask_identity_ai prompt s.identity oracle 3 with
  | Except.error e => Except.error e
  | Except.ok answer0 =>
    match apply_overrides prompt s.identity answer0 with
    | none =>
      Except.ok { s with messages := messages1 ++ [("System", invalid_json_message)] }
    | some answer =>
      let messages2 := messages1 ++ [("AI", answer.response)]
      if answer.is_correct_guess then
        let qc := s.question_count + 1
        Except.ok { s with question_count := qc,
                           messages := messages2 ++ [("System", end_message s.identity qc)],
                           game_over := true }
      else if s.game_over then
        Except.ok { s with messages := messages2 }
      else if answer.is_question then
        Except.ok { s with messages := messages2,
                           question_count := s.question_count + 1,
                           last_answer := some answer }
      else
        Except.ok { s with messages := messages2 }

/-! ### Helper lemmas about the retry loop -/

/-- The loop only ever reads oracle entries for the attempts it may make. -/
theorem askLoop_congr (o₁ o₂ : Nat → String) :
    ∀ (fuel start : Nat),
      (∀ k, start ≤ k → k < start + fuel → o₁ k = o₂ k) →
      askLoop o₁ fuel start = askLoop o₂ fuel start := by
  intro fuel
  induction fuel with
  | zero => intro start _; rfl
  | succ n ih =>
    intro start h
    have h0 : o₁ start = o₂ start := h start le_rfl (by omega)
    cases hA : attemptAnswer (py_strip (o₂ start)) with
    | success a => simp [askLoop, h0, hA]
    | crash => simp [askLoop, h0, hA]
    | failure =>
      simp only [askLoop, h0, hA]
      exact ih (start + 1) (fun k hk1 hk2 => h k (by omega) (by omega))

/-- If every remaining attempt fails, the loop falls through to `none`. -/
theorem askLoop_all_fail (o : Nat → String) :
    ∀ (fuel start : Nat),
      (∀ k, start ≤ k → k < start + fuel →
        attemptAnswer (py_strip (o k)) = StepResult.failure) →
      askLoop o fuel start = Except.ok none := by
  intro fuel
  induction fuel with
  | zero => intro start _; rfl
  | succ n ih =>
    intro start h
    have h0 := h start le_rfl (by omega)
    simp only [askLoop, h0]
    exact ih (start + 1) (fun k hk1 hk2 => h k (by omega) (by omega))

/-- The first attempt that validates is the one returned. -/
theorem askLoop_first_success (o : Nat → String) (a : IdentityAnswer) :
    ∀ (fuel start k : Nat), start ≤ k → k < start + fuel →
      (∀ j, start ≤ j → j < k → attemptAnswer (py_strip (o j)) = StepResult.failure) →
      attemptAnswer (py_strip (o k)) = StepResult.success a →
      askLoop o fuel start = Except.ok (some a) := by
  intro fuel
  induction fuel with
  | zero => intro start k h1 h2 _ _; omega
  | succ n ih =>
    intro start k h1 h2 hfail hsucc
    by_cases hsk : start = k
    · subst hsk
      simp only [askLoop, hsucc]
    · have hlt : start < k := lt_of_le_of_ne h1 hsk
      have hf : attemptAnswer (py_strip (o start)) = StepResult.failure :=
        hfail start le_rfl hlt
      simp only [askLoop, hf]
      exact ih (start + 1) k hlt (by omega) (fun j hj1 hj2 => hfail j (by omega) hj2) hsucc

/-! ### Claims -/

/-- C1: for every recognized category tag, `generate_identity` executes its
retry loop a fixed bounded number of times (`generation_max_retries = 3`),
reassigning the result on each iteration, and returns the trimmed text of
the final iteration's collaborator call unconditionally; values produced by
earlier iterations are never returned. -/
theorem generate_identity_last_attempt_wins (identity_type custom_details : String)
    (oracle : Nat → String) (h : identity_type ∈ identity_types) :
    generate_identity identity_type custom_details oracle =
      some (py_strip (oracle (generation_max_retries - 1))) := by
  simp only [identity_types, List.mem_cons, List.not_mem_nil, or_false] at h
  rcases h with rfl | rfl | rfl | rfl | rfl <;> rfl

/-- Witness for C1: with a "Historical Figure" game and an oracle whose
third call answers with padded text, the generator returns exactly the
trimmed third answer. -/
theorem generate_identity_last_attempt_wins_instance :
    ("Historical Figure" ∈ identity_types) ∧
    generate_identity ("Historical Figure") ("")
        (fun k => if k = 2 then "  Ada Lovelace " else "ignored") = some ("Ada Lovelace") :=
  ⟨by decide,
    (generate_identity_last_attempt_wins ("Historical Figure") ("")
        (fun k => if k = 2 then "  Ada Lovelace " else "ignored") (by decide)).trans rfl⟩

/-- C8: for a category tag outside the enumerated set, `generate_identity`
returns `none`, and does so independently of the collaborator oracle (no
call is made: the function returns before the loop). -/
theorem generate_identity_unrecognized_category (identity_type custom_details : String)
    (oracle : Nat → String) (h : identity_type ∉ identity_types) :
    generate_identity identity_type custom_details oracle = none ∧
    (∀ o₂ : Nat → String,
      generate_identity identity_type custom_details oracle =
        generate_identity identity_type custom_details o₂) := by
  simp only [identity_types, List.mem_cons, List.not_mem_nil, or_false, not_or] at h
  obtain ⟨h1, h2, h3, h4, h5⟩ := h
  constructor
  · simp [generate_identity, identity_prompt, h1, h2, h3, h4, h5]
  · intro o₂
    simp [generate_identity, identity_prompt, h1, h2, h3, h4, h5]

/-- Witness for C8: the unrecognized tag "Animal" yields `none`. -/
theorem generate_identity_unrecognized_category_instance :
    ("Animal" ∉ identity_types) ∧
    generate_identity ("Animal") ("") (fun _ => "Wolf") = none :=
  ⟨by decide,
    (generate_identity_unrecognized_category ("Animal") ("") (fun _ => "Wolf") (by decide)).1⟩

/-- C3: `ask_identity_ai` makes at most `max_retries` collaborator calls
(its result depends only on the first `max_retries` oracle entries), returns
the first attempt that validates, and when every attempt fails both the
strict decode and the brace-extraction fallback it returns `none` without
raising (`Except.ok none`, never `Except.error`). -/
theorem ask_identity_ai_retry_contract :
    (∀ (ui ident : String) (o₁ o₂ : Nat → String) (n : Nat),
        (∀ k, k < n → o₁ k = o₂ k) →
        ask_identity_ai ui ident o₁ n = ask_identity_ai ui ident o₂ n) ∧
    (∀ (ui ident : String) (o : Nat → String) (k : Nat) (a : IdentityAnswer),
        k < 3 →
        (∀ j, j < k → attemptAnswer (py_strip (o j)) = StepResult.failure) →
        attemptAnswer (py_strip (o k)) = StepResult.success a →
        ask_identity_ai ui ident o 3 = Except.ok (some a)) ∧
    (∀ (ui ident : String) (o : Nat → String),
        (∀ k, k < 3 → attemptAnswer (py_strip (o k)) = StepResult.failure) →
        ask_identity_ai ui ident o 3 = Except.ok none) := by
  refine ⟨?_, ?_, ?_⟩
  · intro ui ident o₁ o₂ n h
    exact askLoop_congr o₁ o₂ n 0 (fun k _ hk => h k (by omega))
  · intro ui ident o k a hk hfail hsucc
    exact askLoop_first_success o a 3 0 k (Nat.zero_le k) (by omega)
      (fun j _ hj => hfail j hj) hsucc
  · intro ui ident o h
    exact askLoop_all_fail o 3 0 (fun k _ hk => h k (by omega))

/-- Witness for C3: a collaborator that always answers with plain prose
makes every attempt fail both stages, and the validator returns `none`
without an exception. -/
theorem ask_identity_ai_retry_contract_instance :
    ask_identity_ai ("Are you alive today?") ("Albert Einstein")
      (fun _ => "I cannot answer that.") 3 = Except.ok none :=
  ask_identity_ai_retry_contract.2.2 ("Are you alive today?") ("Albert Einstein")
    (fun _ => "I cannot answer that.") (fun _ _ => rfl)

/-- The raw response of the spec's fallback-extraction example. -/
def c4_raw : String :=
  "Sure! \x7b\"response\":\"yes\",\"is_question\":true,\"is_correct_guess\":false\x7d Hope that helps."

/-- C4: when strict decoding of the trimmed response fails, the attempt
falls back to the first non-greedy brace-delimited substring; on the spec's
example response the extraction recovers the embedded object and the
attempt validates it. -/
theorem fallback_brace_extraction :
    (∀ raw : String, strictStep raw = StepResult.failure →
        attemptAnswer raw = fallbackStep raw) ∧
    extract_first_braces c4_raw =
      some ("\x7b\"response\":\"yes\",\"is_question\":true,\"is_correct_guess\":false\x7d") ∧
    attemptAnswer c4_raw =
      StepResult.success { response := "yes", is_question := true, is_correct_guess := false } := by
  refine ⟨?_, rfl, rfl⟩
  intro raw h
  simp [attemptAnswer, h]

/-- Witness for C4: on the example response the strict stage fails and the
attempt is exactly the fallback stage. -/
theorem fallback_brace_extraction_instance :
    strictStep c4_raw = StepResult.failure ∧ attemptAnswer c4_raw = fallbackStep c4_raw :=
  ⟨rfl, fallback_brace_extraction.1 c4_raw rfl⟩

/-- C2: for every validated answer, when the player input contains the
current identity as a case-insensitive substring, the caller-side
post-processing yields `response = "Yes!"`, `is_correct_guess = true` and
`is_question = false` regardless of the model-returned fields — so the
identity-substring override takes precedence over the yes/no-literal
override (which would have set `is_question` to true) whenever both
conditions hold. -/
theorem identity_substring_override (a : IdentityAnswer) (prompt identity : String)
    (h : py_contains (py_lower prompt) (py_lower identity) = true) :
    apply_overrides prompt identity (some a) =
      some { response := "Yes!", is_question := false, is_correct_guess := true } := by
  simp [apply_overrides, override_guess, h]

/-- Witness for C2: the spec's example, with a model answer whose reply is
the yes/no literal "no" — both override conditions hold and the
identity-substring override decides every field. -/
theorem identity_substring_override_instance :
    py_contains (py_lower ("Is it Albert Einstein?")) (py_lower ("Albert Einstein")) = true ∧
    apply_overrides ("Is it Albert Einstein?") ("Albert Einstein")
        (some { response := "no", is_question := true, is_correct_guess := false }) =
      some { response := "Yes!", is_question := false, is_correct_guess := true } :=
  ⟨by decide,
    identity_substring_override
      { response := "no", is_question := true, is_correct_guess := false }
      ("Is it Albert Einstein?") ("Albert Einstein") (by decide)⟩

/-- C6: a validated answer whose reply is exactly "yes" or "no"
case-insensitively has `is_question` forced to true by the caller-side
override, overriding a false value from the model; through the full
post-processing this survives whenever the identity-substring override does
not fire. -/
theorem yesno_forces_is_question :
    (∀ a : IdentityAnswer, (["yes", "no"].contains (py_lower a.response)) = true →
        override_yesno a = { a with is_question := true }) ∧
    (∀ (a : IdentityAnswer) (prompt identity : String),
        (["yes", "no"].contains (py_lower a.response)) = true →
        py_contains (py_lower prompt) (py_lower identity) = false →
        apply_overrides prompt identity (some a) = some { a with is_question := true }) := by
  constructor
  · intro a h
    unfold override_yesno
    rw [if_pos h]
  · intro a prompt identity h hg
    show some (override_guess prompt identity (override_yesno a)) = _
    unfold override_yesno override_guess
    rw [if_pos h, if_neg (by simp [hg])]

/-- Witness for C6: the decoded payload with reply "no" and both flags
false ends with `is_question = true` after post-processing. -/
theorem yesno_forces_is_question_instance :
    apply_overrides ("Are you alive today?") ("Albert Einstein")
        (some { response := "no", is_question := false, is_correct_guess := false }) =
      some { response := "no", is_question := true, is_correct_guess := false } :=
  yesno_forces_is_question.2
    { response := "no", is_question := false, is_correct_guess := false }
    ("Are you alive today?") ("Albert Einstein") (by decide) (by decide)

/-- C5: after `reset_game`, the session identity is a non-empty string for
every stored category tag (recognized or not) and every oracle; when
generation yields nothing usable (`none` for an unrecognized tag, or an
answer that trims to the empty string), the hardcoded fallback identity
"Albert Einstein" is substituted. -/
theorem reset_game_identity_nonempty (s : SessionState) (oracle : Nat → String) :
    (reset_game s oracle).identity ≠ "" ∧
    ((generate_identity (s.identity_type.getD ("Random Character"))
          (s.custom_details.getD ("")) oracle = none ∨
      generate_identity (s.identity_type.getD ("Random Character"))
          (s.custom_details.getD ("")) oracle = some ("")) →
      (reset_game s oracle).identity = "Albert Einstein") := by
  unfold reset_game
  cases hg : generate_identity (s.identity_type.getD ("Random Character"))
      (s.custom_details.getD ("")) oracle with
  | none => simp [hg]
  | some idText =>
    by_cases he : idText = ""
    · subst he
      simp [hg]
    · simp [hg, he]

/-- Witness for C5: an unrecognized stored tag makes generation fail and
`reset_game` installs the fallback identity, which is non-empty. -/
theorem reset_game_identity_nonempty_instance :
    (reset_game
        { identity := "", question_count := 5, game_over := true, setup_complete := true,
          messages := [], identity_type := some ("Animal"), custom_details := none,
          last_answer := none } (fun _ => "Wolf")).identity = "Albert Einstein" ∧
    (reset_game
        { identity := "", question_count := 5, game_over := true, setup_complete := true,
          messages := [], identity_type := some ("Animal"), custom_details := none,
          last_answer := none } (fun _ => "Wolf")).identity ≠ "" :=
  ⟨(reset_game_identity_nonempty
      { identity := "", question_count := 5, game_over := true, setup_complete := true,
        messages := [], identity_type := some ("Animal"), custom_details := none,
        last_answer := none } (fun _ => "Wolf")).2 (Or.inl rfl),
   (reset_game_identity_nonempty
      { identity := "", question_count := 5, game_over := true, setup_complete := true,
        messages := [], identity_type := some ("Animal"), custom_details := none,
        last_answer := none } (fun _ => "Wolf")).1⟩

/-- C7, corrected: every answer the validator produces has all three
schema fields present — an object missing any of `response`,
`is_question`, `is_correct_guess` is never returned as an Answer — and
each present value provably coerced to the produced record's field (so
the record itself is correctly typed by construction); and every
successful attempt goes through this validation, on either the strictly
decoded response or the brace-extracted substring.  The original claim's
stronger clause, that a wrongly TYPED field also fails the attempt, is
false of default pydantic and is refuted separately. -/
theorem answer_schema_fields_present :
    (∀ (fields : List (String × Json)) (a : IdentityAnswer),
        validateIdentityAnswer fields = some a →
        (∃ vr, dict_get fields ("response") = some vr ∧ coerce_str vr = some a.response) ∧
        (∃ vq, dict_get fields ("is_question") = some vq ∧ coerce_bool vq = some a.is_question) ∧
        (∃ vg, dict_get fields ("is_correct_guess") = some vg ∧
          coerce_bool vg = some a.is_correct_guess)) ∧
    (∀ (raw : String) (a : IdentityAnswer), attemptAnswer raw = StepResult.success a →
        ∃ fields, validateIdentityAnswer fields = some a ∧
          (json_loads raw = some (Json.obj fields) ∨
           ∃ sub, extract_first_braces raw = some sub ∧
             json_loads sub = some (Json.obj fields))) := by
  have hval : ∀ (fields : List (String × Json)) (a : IdentityAnswer),
      validateIdentityAnswer fields = some a →
      (∃ vr, dict_get fields ("response") = some vr ∧ coerce_str vr = some a.response) ∧
      (∃ vq, dict_get fields ("is_question") = some vq ∧ coerce_bool vq = some a.is_question) ∧
      (∃ vg, dict_get fields ("is_correct_guess") = some vg ∧
        coerce_bool vg = some a.is_correct_guess) := by
    intro fields a h
    unfold validateIdentityAnswer at h
    split at h
    case _ => exact Option.noConfusion h
    case _ vr heq1 =>
      split at h
      case _ => exact Option.noConfusion h
      case _ r hc1 =>
        split at h
        case _ => exact Option.noConfusion h
        case _ vq heq2 =>
          split at h
          case _ => exact Option.noConfusion h
          case _ q hc2 =>
            split at h
            case _ => exact Option.noConfusion h
            case _ vg heq3 =>
              split at h
              case _ => exact Option.noConfusion h
              case _ g hc3 =>
                have hinj := Option.some.inj h
                subst hinj
                exact ⟨⟨vr, heq1, hc1⟩, ⟨vq, heq2, hc2⟩, ⟨vg, heq3, hc3⟩⟩
  refine ⟨hval, ?_⟩
  have hstrict : ∀ (raw : String) (a : IdentityAnswer),
      strictStep raw = StepResult.success a →
      ∃ fields, validateIdentityAnswer fields = some a ∧
        json_loads raw = some (Json.obj fields) := by
    intro raw a h
    unfold strictStep at h
    split at h
    case _ => exact StepResult.noConfusion h
    case _ fields hload =>
      split at h
      case _ a0 hv =>
        obtain rfl : a0 = a := StepResult.success.inj h
        exact ⟨fields, hv, hload⟩
      case _ => exact StepResult.noConfusion h
    case _ j hload hno => exact StepResult.noConfusion h
  have hfall : ∀ (raw : String) (a : IdentityAnswer),
      fallbackStep raw = StepResult.success a →
      ∃ fields, validateIdentityAnswer fields = some a ∧
        ∃ sub, extract_first_braces raw = some sub ∧
          json_loads sub = some (Json.obj fields) := by
    intro raw a h
    unfold fallbackStep at h
    split at h
    case _ => exact StepResult.noConfusion h
    case _ sub hsub =>
      split at h
      case _ => exact StepResult.noConfusion h
      case _ fields hload =>
        split at h
        case _ a0 hv =>
          obtain rfl : a0 = a := StepResult.success.inj h
          exact ⟨fields, hv, sub, hsub, hload⟩
        case _ => exact StepResult.noConfusion h
      case _ j hload hno => exact StepResult.noConfusion h
  intro raw a h
  unfold attemptAnswer at h
  split at h
  case _ a0 heqS =>
    obtain rfl : a0 = a := StepResult.success.inj h
    obtain ⟨fields, hv, hload⟩ := hstrict raw _ heqS
    exact ⟨fields, hv, Or.inl hload⟩
  case _ => exact StepResult.noConfusion h
  case _ heqF =>
    obtain ⟨fields, hv, sub, hsub, hload⟩ := hfall raw a h
    exact ⟨fields, hv, Or.inr ⟨sub, hsub, hload⟩⟩

/-- Counterexample to C7 as stated: a decoded object whose two flag fields
are wrongly typed — a JSON number and a JSON string in the declared `bool`
slots — is nevertheless returned as an Answer, both by the validation step
and by a whole attempt of the validator, because default pydantic
lax-coerces `1` and `"no"` to booleans instead of failing. -/
theorem answer_schema_wrong_type_accepted :
    validateIdentityAnswer
        [("response", Json.str ("yes")), ("is_question", Json.num ("1")),
         ("is_correct_guess", Json.str ("no"))] =
      some { response := "yes", is_question := true, is_correct_guess := false } ∧
    attemptAnswer ("\x7b\"response\":\"yes\",\"is_question\":1,\"is_correct_guess\":\"no\"\x7d") =
      StepResult.success { response := "yes", is_question := true, is_correct_guess := false } :=
  ⟨rfl, rfl⟩

/-- The decoded object of the C7 witness: all three fields present, one
well typed and two lax-coerced, plus an ignored extra key. -/
def c7_fields : List (String × Json) :=
  [("response", Json.str ("yes")), ("extra", Json.null),
   ("is_question", Json.num ("1")), ("is_correct_guess", Json.str ("no"))]

/-- Witness for C7: a validated object provably held all three fields,
each coercing to the produced record's value. -/
theorem answer_schema_fields_present_instance :
    (∃ vr, dict_get c7_fields ("response") = some vr ∧ coerce_str vr = some ("yes")) ∧
    (∃ vq, dict_get c7_fields ("is_question") = some vq ∧ coerce_bool vq = some true) ∧
    (∃ vg, dict_get c7_fields ("is_correct_guess") = some vg ∧ coerce_bool vg = some false) :=
  answer_schema_fields_present.1 c7_fields
    { response := "yes", is_question := true, is_correct_guess := false } rfl

/-- C9: in a live game (not yet over), a turn whose validated,
post-processed answer has `is_question = true` and is not a correct guess
increments the question counter by exactly 1 and appends exactly one
player entry and one AI entry to the transcript. -/
theorem question_turn_counts (s : SessionState) (prompt : String) (oracle : Nat → String)
    (a a' : IdentityAnswer)
    (hgo : s.game_over = false)
    (hask : ask_identity_ai prompt s.identity oracle 3 = Except.ok (some a))
    (hov : apply_overrides prompt s.identity (some a) = some a')
    (hq : a'.is_question = true)
    (hg : a'.is_correct_guess = false) :
    handle_turn s prompt oracle =
      Except.ok { s with
        messages := s.messages ++ [("You", prompt), ("AI", a'.response)],
        question_count := s.question_count + 1,
        last_answer := some a' } := by
  unfold handle_turn
  rw [hask]
  have ha' : override_guess prompt s.identity (override_yesno a) = a' :=
    Option.some.inj hov
  simp only [apply_overrides, ha', hg, hgo, hq, Bool.false_eq_true, if_false, if_true,
    ite_false, ite_true, List.append_assoc, List.cons_append, List.nil_append]

/-- The oracle of the C9 witness: a well-formed yes/no answer. -/
def c9_oracle : Nat → String :=
  fun _ => "\x7b\"response\": \"no\", \"is_question\": true, \"is_correct_guess\": false\x7d"

/-- The session of the C9 witness. -/
def c9_state : SessionState :=
  { identity := "Albert Einstein", question_count := 0, game_over := false,
    setup_complete := true, messages := [], identity_type := some ("Historical Figure"),
    custom_details := none, last_answer := none }

/-- Witness for C9: the spec's end-to-end question turn. -/
theorem question_turn_counts_instance :
    handle_turn c9_state ("Are you alive today?") c9_oracle =
      Except.ok { c9_state with
        messages := [("You", "Are you alive today?"), ("AI", "no")],
        question_count := 1,
        last_answer := some { response := "no", is_question := true, is_correct_guess := false } } :=
  question_turn_counts c9_state ("Are you alive today?") c9_oracle
    { response := "no", is_question := true, is_correct_guess := false }
    { response := "no", is_question := true, is_correct_guess := false }
    rfl rfl rfl rfl rfl

/-- C10: when the validator returns no answer, the turn appends the
player's message and a single inline error entry to the transcript and
stops; the question counter, the game-over flag, the identity and every
other session field are unchanged, and neither caller-side override runs —
in particular a turn whose input contains the identity is not recognized
as a correct guess when all validator attempts fail. -/
theorem failed_validation_turn (s : SessionState) (prompt : String) (oracle : Nat → String)
    (hask : ask_identity_ai prompt s.identity oracle 3 = Except.ok none) :
    handle_turn s prompt oracle =
      Except.ok { s with
        messages := s.messages ++ [("You", prompt), ("System", invalid_json_message)] } := by
  unfold handle_turn
  rw [hask]
  simp [apply_overrides, List.append_assoc]

/-- The session of the C10 witness. -/
def c10_state : SessionState :=
  { identity := "Albert Einstein", question_count := 2, game_over := false,
    setup_complete := true, messages := [("System", intro_message)],
    identity_type := some ("Historical Figure"), custom_details := none,
    last_answer := none }

/-- Witness for C10: the player input even names the identity, yet with a
collaborator that never yields valid JSON the turn only records the error:
counter still 2, game not over, identity unchanged. -/
theorem failed_validation_turn_instance :
    handle_turn c10_state ("Is it Albert Einstein?") (fun _ => "I cannot answer that.") =
      Except.ok { c10_state with
        messages := [("System", intro_message), ("You", "Is it Albert Einstein?"),
                     ("System", invalid_json_message)] } :=
  failed_validation_turn c10_state ("Is it Albert Einstein?")
    (fun _ => "I cannot answer that.") rfl
